import Mathlib

/-!
Verification of the MuseScore accessibility registry and event bridge
(`AccessibilityController`, `AccessibleItemInterface`, `AccessibilityRepeater`)
against its natural-language specification.

The C++ sources are shallowly embedded:
* items handed to the registry are identified by `ItemRef` (the root
  controller itself, or a numbered node standing for an `IAccessible*`);
* the per-item data a query can observe (`accessibleRole`, `accessibleName`,
  `accessibleParent`, ...) is a pure record `ItemData`, supplied by an
  environment `Env : Nat → ItemData`;
* the controller's mutable members (`m_allItems`, `m_children`,
  `m_lastFocused`, `m_pretendFocus`, `m_announcement`, ...) form the state
  record `AccessibilityController`; member functions become state-passing
  Lean functions of the same name;
* `sendEvent` pushes each synthesized event both to the internal observer
  channel (`m_eventSent`) and to the platform sink
  (`QAccessible::updateAccessibility`), modelled as two event traces.
-/

/-- `IAccessible::Role` enumeration (iaccessible.h), as used by the sources. -/
inductive Role where
  | NoRole
  | Application
  | Dialog
  | Panel
  | Button
  | RadioButton
  | CheckBox
  | ComboBox
  | EditableText
  | StaticText
  | List
  | ListItem
  | MenuItem
  | SpinBox
  | Range
  | Group
  | Information
  | ElementOnScore
  | SilentRole
deriving DecidableEq, Repr

/-- `IAccessible::State` enumeration: the per-state boolean queries
(`accessibleState(st)`). -/
inductive IState where
  | Enabled
  | Active
  | Focused
  | Selected
  | Checked
deriving DecidableEq, Repr

/-- Reference to an accessible item: the controller root itself
(`this` inside `AccessibilityController`), or an external item
(an `IAccessible*`, identified by number). -/
inductive ItemRef where
  | root
  | node (i : Nat)
deriving DecidableEq, Repr

/-- The observable data of one external accessible item: what its virtual
`accessible*` queries return. `value` stands for
`accessibleValue().toString()`. -/
structure ItemData where
  role : Role := Role.NoRole
  name : String := ""
  description : String := ""
  value : String := ""
  screenReaderInfo : String := ""
  extraInfo : String := ""
  parent : Option ItemRef := none
  childList : List ItemRef := []
  states : IState → Bool := fun _ => false
  ignored : Bool := false

/-- Environment: the live application object graph, resolving each
`ItemRef.node i` to its item data. -/
def Env : Type := Nat → ItemData

/-- `item->accessibleParent()` for any reference. The controller root's own
`accessibleParent()` returns `nullptr` (accessibilitycontroller.cpp). -/
def parentOf (env : Env) : ItemRef → Option ItemRef
  | ItemRef.root => none
  | ItemRef.node i => (env i).parent

/-- Resolve a reference to the data observed through the `IAccessible`
queries used by the speech fallback. For the root, the controller's own
implementations apply (name "MuseScore", role Application, empty
description/value, no screen-reader info). -/
def dataOf (env : Env) : ItemRef → ItemData
  | ItemRef.root =>
      { role := Role.Application, name := "MuseScore" }
  | ItemRef.node i => env i

/-- Event types synthesized by the controller (`QAccessible::Event`). -/
inductive AccEventType where
  | objectCreated
  | objectDestroyed
  | nameChanged
  | parentChanged
  | descriptionChanged
  | acceleratorChanged
  | valueChanged
  | textCursorMoved
  | textInserted
  | textRemoved
deriving DecidableEq, Repr

/-- An accessibility event: the wrapper object it is about
(`QAccessibleEvent::object()`, identified by the wrapper's allocation
number) and its type. -/
structure AccEvent where
  object : Nat
  etype : AccEventType
deriving DecidableEq, Repr

/-- `AccessibilityController::Item` (the registry entry): wrapped item,
owned `AccessibleObject*` wrapper and resolved `QAccessibleInterface*`
handle; wrapper and handle are identified by the wrapper's allocation
number. Default-constructed (all null) is the invalid sentinel. -/
structure Item where
  item : Option ItemRef := none
  object : Option Nat := none
  iface : Option Nat := none
deriving DecidableEq, Repr

/-- `Item::isValid()`: item and object pointers non-null. -/
def Item.isValid (it : Item) : Bool :=
  it.item.isSome && it.object.isSome

/-- `Item::isUsable()`: valid and the wrapped item is not ignored. -/
def Item.isUsable (env : Env) (it : Item) : Bool :=
  it.isValid && !(match it.item with
                  | some r => (dataOf env r).ignored
                  | none => false)

/-- Mutable state of `AccessibilityController` (accessibilitycontroller.h).
Field defaults are the C++ member initializers. `m_eventSent` is the
history of events pushed to the internal observer channel and
`platformEvents` the history forwarded to
`QAccessible::updateAccessibility`; `nextObjId` numbers the
`AccessibleObject` wrappers as they are allocated. -/
structure AccessibilityController where
  m_enabled : Bool := true
  m_inited : Bool := false
  m_allItems : List (ItemRef × Item) := []
  m_children : List ItemRef := []
  m_lastFocused : Option ItemRef := none
  m_pretendFocus : Option ItemRef := none
  m_announcement : String := ""
  m_repeatHotkeyEnabled : Bool := true
  m_repeatHotkey : Nat := 16777275
  m_eventSent : List AccEvent := []
  platformEvents : List AccEvent := []
  nextObjId : Nat := 0

namespace AccessibilityController

/-- `findItem`: hash lookup by item identity, invalid sentinel on miss. -/
def findItem (c : AccessibilityController) (aitem : ItemRef) : Item :=
  match c.m_allItems.find? (fun p => p.1 = aitem) with
  | some p => p.2
  | none => {}

/-- `sendEvent`: push to the internal channel, then forward to the platform
(`QAccessible::updateAccessibility`). Both deliveries are unconditional. -/
def sendEvent (c : AccessibilityController) (ev : AccEvent) : AccessibilityController :=
  { c with
    m_eventSent := c.m_eventSent ++ [ev]
    platformEvents := c.platformEvents ++ [ev] }

/-- `needsRevoicing`: this version always takes the plain event path. -/
def needsRevoicing (_iface : Nat) (_etype : AccEventType) : Bool :=
  false

/-- `triggerRevoicing`: emit a NameChanged event for the current entry. -/
def triggerRevoicing (c : AccessibilityController) (current : Item) : AccessibilityController :=
  match current.object with
  | some obj => c.sendEvent { object := obj, etype := AccEventType.nameChanged }
  | none => c

/-- Core of `reg` past the enable/init preamble: bail out if the item is
already registered ("Already registered" warning), otherwise create the
wrapper, resolve its interface handle, store the entry, append to the
top-level children list when the item reports the controller as its
parent, and emit an ObjectCreated event. -/
def regCore (env : Env) (c : AccessibilityController) (item : ItemRef) : AccessibilityController :=
  if (c.findItem item).isValid then c
  else
    let obj := c.nextObjId
    let entry : Item := { item := some item, object := some obj, iface := some obj }
    let c1 := { c with
                m_allItems := c.m_allItems ++ [(item, entry)]
                nextObjId := c.nextObjId + 1 }
    let c2 := if parentOf env item = some ItemRef.root
              then { c1 with m_children := c1.m_children ++ [item] }
              else c1
    c2.sendEvent { object := obj, etype := AccEventType.objectCreated }

/-- `reg(item)`: no-op while accessibility is disabled; on the first ever
call sets `m_inited` and runs `init()`, whose `reg(this)` re-enters `reg`
with `m_enabled` and `m_inited` both set and therefore reduces to
`regCore` on the root; then registers the requested item. (The factory /
root-object installation and the event-filter installation performed by
`init()` act on the platform, not on the controller state.) -/
def reg (env : Env) (c : AccessibilityController) (item : ItemRef) : AccessibilityController :=
  if c.m_enabled then
    let c1 := if c.m_inited then c
              else regCore env { c with m_inited := true } ItemRef.root
    regCore env c1 item
  else c

/-- `unreg(aitem)`: null guard, then `m_allItems.take` (lookup + removal of
the key), no-op if the taken entry is invalid; clears `m_lastFocused` and
`m_pretendFocus` when they point at the taken item, removes the item from
the top-level children list, emits ObjectDestroyed while the wrapper is
still alive, then deletes the wrapper. -/
def unreg (c : AccessibilityController) (aitem : Option ItemRef) : AccessibilityController :=
  match aitem with
  | none => c
  | some r =>
    let item := c.findItem r
    let c1 := { c with m_allItems := c.m_allItems.filter (fun p => ¬(p.1 = r)) }
    if item.isValid then
      let c2 := if item.item = c1.m_lastFocused
                then { c1 with m_lastFocused := none } else c1
      let c3 := if item.item = c2.m_pretendFocus
                then { c2 with m_pretendFocus := none } else c2
      let c4 := if r ∈ c3.m_children
                then { c3 with m_children := c3.m_children.erase r } else c3
      match item.object with
      | some obj => c4.sendEvent { object := obj, etype := AccEventType.objectDestroyed }
      | none => c4
    else c1

/-- `announce(text)`: record the pending announcement; return early when no
item is focused or the text is empty; return early when the focused item
has no valid entry; otherwise emit NameChanged through the revoicing
check (which in this version always takes the plain path). -/
def announce (c : AccessibilityController) (text : String) : AccessibilityController :=
  let c1 := { c with m_announcement := text }
  if c1.m_lastFocused = none ∨ text = "" then c1
  else
    match c1.m_lastFocused with
    | none => c1
    | some r =>
      let focused := c1.findItem r
      if focused.isValid then
        if focused.iface.isSome ∧
           needsRevoicing (focused.iface.getD 0) AccEventType.nameChanged = true then
          c1.triggerRevoicing focused
        else
          c1.sendEvent { object := focused.object.getD 0, etype := AccEventType.nameChanged }
      else c1

/-- `buildSpokenDescriptionFor(acc)`: the speech-fallback description.
Null item: "No element focused". Score elements join the non-empty
screen-reader / extra info with "; ", falling through to the generic path
when both are empty. Generic path joins non-empty name, description and
"value: "-prefixed value with ", ", or yields "Unknown element". -/
def buildSpokenDescriptionFor (env : Env) (acc : Option ItemRef) : String :=
  match acc with
  | none => "No element focused"
  | some r =>
    let a := dataOf env r
    let scoreParts : List String :=
      (if ¬(a.screenReaderInfo = "") then [a.screenReaderInfo] else [])
        ++ (if ¬(a.extraInfo = "") then [a.extraInfo] else [])
    if a.role = Role.ElementOnScore ∧ ¬(scoreParts = []) then
      String.intercalate "; " scoreParts
    else
      let parts : List String :=
        (if ¬(a.name = "") then [a.name] else [])
          ++ (if ¬(a.description = "") then [a.description] else [])
          ++ (if ¬(a.value = "") then ["value: " ++ a.value] else [])
      if parts = [] then "Unknown element"
      else String.intercalate ", " parts

end AccessibilityController

namespace AccessibilityRepeater

/-- `AccessibilityRepeater::getCurrentElementInfo`: same construction as
the controller's `buildSpokenDescriptionFor`, applied to the controller's
`lastFocused()` item ("No element focused" when none is focused). -/
def getCurrentElementInfo (env : Env) (lastFocused : Option ItemRef) : String :=
  match lastFocused with
  | none => "No element focused"
  | some r =>
    let a := dataOf env r
    let scoreParts : List String :=
      (if ¬(a.screenReaderInfo = "") then [a.screenReaderInfo] else [])
        ++ (if ¬(a.extraInfo = "") then [a.extraInfo] else [])
    if a.role = Role.ElementOnScore ∧ ¬(scoreParts = []) then
      String.intercalate "; " scoreParts
    else
      let parts : List String :=
        (if ¬(a.name = "") then [a.name] else [])
          ++ (if ¬(a.description = "") then [a.description] else [])
          ++ (if ¬(a.value = "") then ["value: " ++ a.value] else [])
      if parts = [] then "Unknown element"
      else String.intercalate ", " parts

end AccessibilityRepeater

namespace AccessibilityController

/-- Root `accessibleParent()`: the controller has no parent. -/
def accessibleParent : Option ItemRef :=
  none

/-- Root `accessibleChildCount()`: size of the top-level children list. -/
def accessibleChildCount (c : AccessibilityController) : Nat :=
  c.m_children.length

/-- Root `accessibleChild(i)`: null when the index is at or past the size
of the top-level children list, otherwise the list element at `i`. -/
def accessibleChild (c : AccessibilityController) (i : Nat) : Option ItemRef :=
  if i ≥ c.m_children.length then none
  else c.m_children[i]?

/-- Root `accessibleRole()`. -/
def accessibleRole : Role :=
  Role.Application

/-- Root `accessibleName()`: the string screen readers speak for the
application root. -/
def accessibleName : String :=
  "MuseScore"

/-- Root `accessibleDescription()`. -/
def accessibleDescription : String :=
  ""

/-- Root `accessibleValue().toString()` (a default-constructed QVariant). -/
def accessibleValue : String :=
  ""

/-- Root `accessibleMaximumValue().toString()`. -/
def accessibleMaximumValue : String :=
  ""

/-- Root `accessibleMinimumValue().toString()`. -/
def accessibleMinimumValue : String :=
  ""

/-- Root `accessibleValueStepSize().toString()`. -/
def accessibleValueStepSize : String :=
  ""

/-- Root `accessibleSelection(i)`: writes 0 to both out-parameters. -/
def accessibleSelection (_i : Nat) : Nat × Nat :=
  (0, 0)

/-- Root `accessibleSelectionCount()`. -/
def accessibleSelectionCount : Nat :=
  0

/-- Root `accessibleCursorPosition()`. -/
def accessibleCursorPosition : Nat :=
  0

/-- Root `accessibleText(start, end)`. -/
def accessibleText (_startOffset _endOffset : Int) : String :=
  ""

/-- Root `accessibleCharacterCount()`. -/
def accessibleCharacterCount : Nat :=
  0

/-- Root `accessibleRowIndex()`. -/
def accessibleRowIndex : Nat :=
  0

/-- `childCount(item)` tree-navigation helper: the item's own reported
child count, 0 for a null item. -/
def childCount (env : Env) (item : Option ItemRef) : Nat :=
  match item with
  | none => 0
  | some r => (dataOf env r).childList.length

end AccessibilityController

/-- Qt event types offered to the global filter, reduced to the
distinction the filter makes. -/
inductive QEventType where
  | keyPress
  | other
deriving DecidableEq, Repr

/-- A raw input event as seen by `eventFilter`: its type, `QKeyEvent`
key code, modifier mask (0 is `Qt::NoModifier`) and auto-repeat flag. -/
structure InputEvent where
  etype : QEventType
  key : Nat
  modifiers : Nat
  autoRepeat : Bool
deriving DecidableEq, Repr

namespace AccessibilityController

/-- `eventFilter(watched, event)`: first component is the returned
"handled" flag, second records whether `repeatCurrentElementInfo()` (the
repeat-speech action) was invoked. Null events and disabled hotkey bail
out; a non-auto-repeat press of the configured hotkey with no modifiers
triggers the action and consumes the event. -/
def eventFilter (c : AccessibilityController) (event : Option InputEvent) :
    Bool × Bool :=
  match event with
  | none => (false, false)
  | some ev =>
    if c.m_repeatHotkeyEnabled then
      if ev.etype = QEventType.keyPress
         ∧ ev.autoRepeat = false
         ∧ ev.key = c.m_repeatHotkey
         ∧ ev.modifiers = 0 then
        (true, true)
      else (false, false)
    else (false, false)

end AccessibilityController

/-- `QAccessible::State` flag set, restricted to the flags the wrapper's
`state()` can touch. A default-constructed state has every flag clear. -/
structure QState where
  disabled : Bool := false
  invisible : Bool := false
  active : Bool := false
  focusable : Bool := false
  focused : Bool := false
  checkable : Bool := false
  checked : Bool := false
  selectable : Bool := false
  selected : Bool := false
deriving DecidableEq, Repr

namespace AccessibleItemInterface

/-- `AccessibleItemInterface::state()`: disabled items report
disabled+invisible and return early; otherwise flags are derived from the
item's role and per-state queries (accessibleiteminterface.cpp). -/
def state (item : ItemData) : QState :=
  let disabled := !(item.states IState.Enabled)
  let base : QState := { disabled := disabled, invisible := disabled }
  if disabled then base
  else
    match item.role with
    | Role.NoRole => base
    | Role.Application => { base with active := true }
    | Role.Dialog => { base with active := item.states IState.Active }
    | Role.Panel => { base with active := item.states IState.Active }
    | Role.Button =>
        { base with focusable := true, focused := item.states IState.Focused }
    | Role.RadioButton =>
        { base with focusable := true, focused := item.states IState.Focused,
                    checkable := true, checked := item.states IState.Checked }
    | Role.EditableText =>
        { base with focusable := true, focused := item.states IState.Focused }
    | Role.StaticText =>
        { base with focusable := true, focused := item.states IState.Focused }
    | Role.SilentRole =>
        { base with focusable := true, focused := item.states IState.Focused }
    | Role.List => { base with active := item.states IState.Active }
    | Role.ListItem =>
        { base with focusable := true, focused := item.states IState.Focused,
                    selectable := true, selected := item.states IState.Selected }
    | Role.Information =>
        { base with focusable := true, focused := item.states IState.Focused }
    | Role.ElementOnScore =>
        { base with focusable := true, focused := item.states IState.Focused }
    | Role.CheckBox =>
        { base with focusable := true, focused := item.states IState.Focused,
                    checkable := true, checked := item.states IState.Checked }
    | Role.ComboBox =>
        { base with focusable := true, focused := item.states IState.Focused }
    | Role.MenuItem =>
        { base with focusable := true, focused := item.states IState.Focused }
    | Role.SpinBox =>
        { base with focusable := true, focused := item.states IState.Focused }
    | Role.Range =>
        { base with focusable := true, focused := item.states IState.Focused }
    | Role.Group =>
        { base with focusable := true, focused := item.states IState.Focused }

end AccessibleItemInterface

/-- The non-empty strings among a candidate list (spec wording). -/
def nonEmpty (l : List String) : List String :=
  l.filter (fun s => !s.isEmpty)

/-- The spoken description as the spec words it: for a null/absent focused
item the literal "No element focused"; for a document-content
(ElementOnScore) item with at least one non-empty of screen-reader-info /
extra-info, those joined with "; "; otherwise (falling through when both
are empty) the non-empty strings among name, description and
"value: "+value joined with ", ", or "Unknown element" when that list is
empty. -/
def spokenDescriptionSpec (env : Env) (acc : Option ItemRef) : String :=
  match acc with
  | none => "No element focused"
  | some r =>
    let a := dataOf env r
    if a.role = Role.ElementOnScore
       ∧ ¬(nonEmpty [a.screenReaderInfo, a.extraInfo] = []) then
      String.intercalate "; " (nonEmpty [a.screenReaderInfo, a.extraInfo])
    else
      let generic := nonEmpty [a.name, a.description]
        ++ (if a.value.isEmpty then [] else ["value: " ++ a.value])
      if generic = [] then "Unknown element"
      else String.intercalate ", " generic

/-- Well-formedness of the registry entry table, maintained by
construction in the C++ code: every stored entry wraps exactly the item
it is keyed by and owns a live wrapper object. -/
def Wf (c : AccessibilityController) : Prop :=
  ∀ p ∈ c.m_allItems, p.2.item = some p.1 ∧ p.2.object.isSome = true

/-- An environment with no interesting items (every node is default). -/
def envEmpty : Env :=
  fun _ => {}

/-- Scenario environment: node 0 is panel A parented to the root with one
child, node 1 is button B parented to A. -/
def envScenario : Env := fun i =>
  if i = 0 then
    { role := Role.Panel, name := "A", parent := some ItemRef.root,
      childList := [ItemRef.node 1] }
  else if i = 1 then
    { role := Role.Button, name := "B", parent := some (ItemRef.node 0) }
  else {}

/-- Registry state after the scenario: register A (parent = root), then
register B (parent = A), starting from a fresh controller. -/
def regScenario : AccessibilityController :=
  AccessibilityController.reg envScenario
    (AccessibilityController.reg envScenario {} (ItemRef.node 0))
    (ItemRef.node 1)

/-- A concrete valid registry entry for item node 0 with wrapper 5. -/
def entryNode0 : Item :=
  { item := some (ItemRef.node 0), object := some 5, iface := some 5 }

/-- A concrete well-formed controller state with node 0 registered,
focused and pretend-focused. -/
def ctrlFocused : AccessibilityController :=
  { m_inited := true
    m_allItems := [(ItemRef.node 0, entryNode0)]
    m_lastFocused := some (ItemRef.node 0)
    m_pretendFocus := some (ItemRef.node 0) }

theorem string_isEmpty_false_iff (s : String) : s.isEmpty = false ↔ ¬(s = "") := by
  constructor
  · intro h he
    rw [he, (String.isEmpty_iff "").mpr rfl] at h
    simp at h
  · intro h
    cases hb : s.isEmpty
    · rfl
    · exact absurd ((String.isEmpty_iff s).mp hb) h

theorem nonEmpty_pair (x y : String) :
    nonEmpty [x, y]
      = (if ¬(x = "") then [x] else []) ++ (if ¬(y = "") then [y] else []) := by
  by_cases hx : x = "" <;> by_cases hy : y = "" <;>
    simp [nonEmpty, hx, hy, String.isEmpty_iff, (string_isEmpty_false_iff _).mpr]

/-- C1. The spoken description built by the speech fallback
(`buildSpokenDescriptionFor`, and identically
`AccessibilityRepeater::getCurrentElementInfo`) equals the spec formula:
"No element focused" for an absent item; for a document-content
(ElementOnScore) item the non-empty strings among screen-reader-info and
extra-info joined with "; ", falling through when both are empty;
otherwise the non-empty strings among name, description and
"value: "+value joined with ", ", or "Unknown element" if none. -/
theorem buildSpokenDescription_matches_spec (env : Env) (acc : Option ItemRef) :
    AccessibilityController.buildSpokenDescriptionFor env acc
      = spokenDescriptionSpec env acc
    ∧ AccessibilityRepeater.getCurrentElementInfo env acc
      = spokenDescriptionSpec env acc := by
  have hrep : AccessibilityRepeater.getCurrentElementInfo env acc
      = AccessibilityController.buildSpokenDescriptionFor env acc := rfl
  suffices h : AccessibilityController.buildSpokenDescriptionFor env acc
      = spokenDescriptionSpec env acc from ⟨h, hrep.trans h⟩
  cases acc with
  | none => rfl
  | some r =>
    simp only [AccessibilityController.buildSpokenDescriptionFor,
      spokenDescriptionSpec, nonEmpty_pair]
    by_cases hrole : (dataOf env r).role = Role.ElementOnScore <;>
      by_cases h1 : (dataOf env r).screenReaderInfo = "" <;>
      by_cases h2 : (dataOf env r).extraInfo = "" <;>
      by_cases h3 : (dataOf env r).name = "" <;>
      by_cases h4 : (dataOf env r).description = "" <;>
      by_cases h5 : (dataOf env r).value = "" <;>
      simp_all [String.isEmpty_iff, (string_isEmpty_false_iff _).mpr]

theorem find?_append_of_none {α : Type} (l1 l2 : List α) (p : α → Bool)
    (h : l1.find? p = none) : (l1 ++ l2).find? p = l2.find? p := by
  rw [List.find?_append, h]
  rfl

theorem unreg_m_allItems (c : AccessibilityController) (r : ItemRef) :
    (AccessibilityController.unreg c (some r)).m_allItems
      = c.m_allItems.filter (fun p => ¬(p.1 = r)) := by
  cases ho : (c.findItem r).object with
  | none =>
    simp only [AccessibilityController.unreg, AccessibilityController.sendEvent, ho]
    repeat' split <;> simp
  | some obj =>
    simp only [AccessibilityController.unreg, AccessibilityController.sendEvent, ho]
    repeat' split <;> simp

theorem findItem_unreg_self (c : AccessibilityController) (r : ItemRef) :
    (AccessibilityController.unreg c (some r)).findItem r = ({} : Item) := by
  unfold AccessibilityController.findItem
  rw [unreg_m_allItems]
  have hnone : (c.m_allItems.filter (fun p => ¬(p.1 = r))).find?
      (fun p => p.1 = r) = none := by
    refine List.find?_eq_none.mpr ?_
    intro x hx
    have := (List.mem_filter.mp hx).2
    simp only [decide_not, Bool.not_eq_true', decide_eq_false_iff_not] at this
    simp [this]
  rw [hnone]

/-- C2. For every state, registering an item and then unregistering it
leaves the entry table without an entry for that item, and a subsequent
`findItem` returns the invalid sentinel (null item, null wrapper) rather
than failing. -/
theorem reg_unreg_removes_entry (env : Env) (c : AccessibilityController) (r : ItemRef) :
    ((AccessibilityController.unreg (AccessibilityController.reg env c r)
        (some r)).findItem r).item = none
    ∧ ((AccessibilityController.unreg (AccessibilityController.reg env c r)
        (some r)).findItem r).object = none
    ∧ ∀ p ∈ (AccessibilityController.unreg (AccessibilityController.reg env c r)
        (some r)).m_allItems, ¬(p.1 = r) := by
  refine ⟨?_, ?_, ?_⟩
  · rw [findItem_unreg_self]
  · rw [findItem_unreg_self]
  · rw [unreg_m_allItems]
    intro p hp
    have := (List.mem_filter.mp hp).2
    simpa using this

/-- Witness for C2 at a concrete state and item. -/
theorem reg_unreg_removes_entry_witness :
    ((AccessibilityController.unreg
        (AccessibilityController.reg envScenario ctrlFocused (ItemRef.node 3))
        (some (ItemRef.node 3))).findItem (ItemRef.node 3)).item = none :=
  (reg_unreg_removes_entry envScenario ctrlFocused (ItemRef.node 3)).1

/-- C4. `announce(text)` with empty text or no focused item only records
the pending announcement: no event reaches the internal observer channel
or the platform sink, and no other state changes. -/
theorem announce_no_focus_or_empty_noop (c : AccessibilityController) (text : String)
    (h : c.m_lastFocused = none ∨ text = "") :
    AccessibilityController.announce c text = { c with m_announcement := text } := by
  unfold AccessibilityController.announce
  rw [if_pos]
  simpa using h

/-- Witness for C4: empty text, and separately no focused item. -/
theorem announce_no_focus_or_empty_noop_witness :
    AccessibilityController.announce ctrlFocused ""
      = { ctrlFocused with m_announcement := "" }
    ∧ AccessibilityController.announce {} "hello"
      = { ({} : AccessibilityController) with m_announcement := "hello" } :=
  ⟨announce_no_focus_or_empty_noop ctrlFocused "" (Or.inr rfl),
   announce_no_focus_or_empty_noop {} "hello" (Or.inl rfl)⟩

/-- C10. The root's `accessibleChild(i)` returns null for every index at
or past the top-level children count; the out-of-range branch is total. -/
theorem accessibleChild_out_of_range (c : AccessibilityController) (i : Nat)
    (h : c.m_children.length ≤ i) :
    AccessibilityController.accessibleChild c i = none := by
  unfold AccessibilityController.accessibleChild
  rw [if_pos h]

/-- Witness for C10 at the scenario state and index 1 = child count. -/
theorem accessibleChild_out_of_range_witness :
    AccessibilityController.accessibleChild regScenario 1 = none :=
  accessibleChild_out_of_range regScenario 1 (by decide)

/-- C6. A wrapped item whose Enabled state is false reports exactly
disabled+invisible from the wrapper's computed platform state, with every
other flag clear, regardless of role. -/
theorem state_disabled_reports_only_disabled_invisible (item : ItemData)
    (h : item.states IState.Enabled = false) :
    AccessibleItemInterface.state item
      = { disabled := true, invisible := true } := by
  unfold AccessibleItemInterface.state
  rw [h]
  rfl

/-- Witness for C6: a disabled button. -/
theorem state_disabled_witness :
    AccessibleItemInterface.state { role := Role.Button }
      = { disabled := true, invisible := true } :=
  state_disabled_reports_only_disabled_invisible { role := Role.Button } rfl

/-- C7 counterexample: the claim's fixed root name "application" is false;
the root's `accessibleName()` is the literal "MuseScore". -/
theorem root_name_is_not_application :
    ¬(AccessibilityController.accessibleName = "application") := by
  decide

/-- C7 amended: the Registry root implements the AccessibleItem capability
with fixed name "MuseScore", role Application, no parent, the top-level
list as its children, and all value/text operations returning
empty/zero. -/
theorem root_implements_accessible_capability :
    AccessibilityController.accessibleName = "MuseScore"
    ∧ AccessibilityController.accessibleRole = Role.Application
    ∧ AccessibilityController.accessibleParent = none
    ∧ (∀ c : AccessibilityController,
        AccessibilityController.accessibleChildCount c = c.m_children.length)
    ∧ (∀ (c : AccessibilityController) (i : Nat),
        AccessibilityController.accessibleChild c i = c.m_children[i]?)
    ∧ AccessibilityController.accessibleDescription = ""
    ∧ AccessibilityController.accessibleValue = ""
    ∧ AccessibilityController.accessibleMaximumValue = ""
    ∧ AccessibilityController.accessibleMinimumValue = ""
    ∧ AccessibilityController.accessibleValueStepSize = ""
    ∧ (∀ i : Nat, AccessibilityController.accessibleSelection i = (0, 0))
    ∧ AccessibilityController.accessibleSelectionCount = 0
    ∧ AccessibilityController.accessibleCursorPosition = 0
    ∧ (∀ s e : Int, AccessibilityController.accessibleText s e = "")
    ∧ AccessibilityController.accessibleCharacterCount = 0
    ∧ AccessibilityController.accessibleRowIndex = 0 := by
  refine ⟨rfl, rfl, rfl, fun c => rfl, fun c i => ?_, rfl, rfl, rfl, rfl, rfl,
    fun i => rfl, rfl, rfl, fun s e => rfl, rfl, rfl⟩
  unfold AccessibilityController.accessibleChild
  split
  · exact (List.getElem?_eq_none (by omega)).symm
  · rfl

/-- C8. A key event carrying the auto-repeat flag never triggers the
repeat-speech action; a key press of the configured repeat hotkey without
auto-repeat and with no modifiers always triggers it (the second
component of `eventFilter` records whether `repeatCurrentElementInfo` was
invoked). -/
theorem eventFilter_repeat_hotkey (c : AccessibilityController) (e : InputEvent) :
    (e.autoRepeat = true →
      (AccessibilityController.eventFilter c (some e)).2 = false)
    ∧ (c.m_repeatHotkeyEnabled = true → e.etype = QEventType.keyPress →
       e.autoRepeat = false → e.key = c.m_repeatHotkey → e.modifiers = 0 →
       (AccessibilityController.eventFilter c (some e)).2 = true) := by
  constructor
  · intro h
    cases hc : c.m_repeatHotkeyEnabled <;>
      simp [AccessibilityController.eventFilter, hc, h]
  · intro he hk ha hkey hm
    simp [AccessibilityController.eventFilter, he, hk, ha, hkey, hm]

/-- Witness for C8: an auto-repeated press of the hotkey does not trigger,
a clean press of the default hotkey F12 does. -/
theorem eventFilter_repeat_hotkey_witness :
    (AccessibilityController.eventFilter {}
      (some { etype := QEventType.keyPress, key := 16777275,
              modifiers := 0, autoRepeat := true })).2 = false
    ∧ (AccessibilityController.eventFilter {}
      (some { etype := QEventType.keyPress, key := 16777275,
              modifiers := 0, autoRepeat := false })).2 = true :=
  ⟨(eventFilter_repeat_hotkey {} _).1 rfl,
   (eventFilter_repeat_hotkey {} _).2 rfl rfl rfl rfl rfl⟩

theorem regCore_already (env : Env) (c : AccessibilityController) (i : ItemRef)
    (h : (c.findItem i).isValid = true) :
    AccessibilityController.regCore env c i = c := by
  simp [AccessibilityController.regCore, h]

theorem regCore_m_allItems (env : Env) (c : AccessibilityController) (i : ItemRef)
    (h : (c.findItem i).isValid = false) :
    (AccessibilityController.regCore env c i).m_allItems
      = c.m_allItems
        ++ [(i, (⟨some i, some c.nextObjId, some c.nextObjId⟩ : Item))] := by
  simp only [AccessibilityController.regCore, AccessibilityController.sendEvent, h]
  repeat' split <;> simp_all

theorem regCore_m_enabled (env : Env) (c : AccessibilityController) (i : ItemRef) :
    (AccessibilityController.regCore env c i).m_enabled = c.m_enabled := by
  simp only [AccessibilityController.regCore, AccessibilityController.sendEvent]
  repeat' split <;> simp

theorem regCore_m_inited (env : Env) (c : AccessibilityController) (i : ItemRef) :
    (AccessibilityController.regCore env c i).m_inited = c.m_inited := by
  simp only [AccessibilityController.regCore, AccessibilityController.sendEvent]
  repeat' split <;> simp

theorem findItem_invalid_find?_none (c : AccessibilityController) (r : ItemRef)
    (hw : Wf c) (hv : (c.findItem r).isValid = false) :
    c.m_allItems.find? (fun p => p.1 = r) = none := by
  cases hf : c.m_allItems.find? (fun p => p.1 = r) with
  | none => rfl
  | some p =>
    exfalso
    have hp := hw p (List.mem_of_find?_eq_some hf)
    have hfind : c.findItem r = p.2 := by
      unfold AccessibilityController.findItem
      rw [hf]
    rw [hfind] at hv
    unfold Item.isValid at hv
    rw [hp.1] at hv
    simp [hp.2] at hv

theorem Wf_regCore (env : Env) (c : AccessibilityController) (i : ItemRef)
    (h : Wf c) : Wf (AccessibilityController.regCore env c i) := by
  cases hv : (c.findItem i).isValid
  · intro p hp
    rw [regCore_m_allItems env c i hv] at hp
    rcases List.mem_append.mp hp with h1 | h2
    · exact h p h1
    · have hpe : p = (i, (⟨some i, some c.nextObjId, some c.nextObjId⟩ : Item)) := by
        simpa using h2
      subst hpe
      exact ⟨rfl, rfl⟩
  · rw [regCore_already env c i hv]
    exact h

theorem findItem_regCore_self (env : Env) (c : AccessibilityController) (r : ItemRef)
    (hw : Wf c) :
    ((AccessibilityController.regCore env c r).findItem r).isValid = true := by
  cases hv : (c.findItem r).isValid
  · unfold AccessibilityController.findItem
    rw [regCore_m_allItems env c r hv,
      find?_append_of_none _ _ _ (findItem_invalid_find?_none c r hw hv)]
    simp [List.find?, Item.isValid]
  · rw [regCore_already env c r hv]
    exact hv

theorem reg_m_inited (env : Env) (c : AccessibilityController) (r : ItemRef)
    (h : c.m_enabled = true) :
    (AccessibilityController.reg env c r).m_inited = true := by
  simp only [AccessibilityController.reg, h, if_true]
  split
  · rw [regCore_m_inited]
    assumption
  · rw [regCore_m_inited, regCore_m_inited]

theorem reg_findItem_valid (env : Env) (c : AccessibilityController) (r : ItemRef)
    (he : c.m_enabled = true) (hw : Wf c) :
    ((AccessibilityController.reg env c r).findItem r).isValid = true := by
  simp only [AccessibilityController.reg, he, if_true]
  split
  · exact findItem_regCore_self env c r hw
  · exact findItem_regCore_self env _ r (Wf_regCore env _ ItemRef.root hw)

theorem reg_noop_inited_registered (env : Env) (c : AccessibilityController) (r : ItemRef)
    (hi : c.m_inited = true) (hv : (c.findItem r).isValid = true) :
    AccessibilityController.reg env c r = c := by
  cases he : c.m_enabled
  · simp [AccessibilityController.reg, he]
  · simp only [AccessibilityController.reg, he, hi, if_true]
    exact regCore_already env c r hv

/-- C3. `reg(item)` is a no-op on the registry state when accessibility is
disabled, or when the item already has an entry (in an initialized
controller); in particular a second registration of the same item changes
nothing: entry table, children list and all other state are unchanged. -/
theorem reg_noop_disabled_or_registered (env : Env) (c : AccessibilityController)
    (r : ItemRef) :
    (c.m_enabled = false → AccessibilityController.reg env c r = c)
    ∧ (c.m_inited = true → (c.findItem r).isValid = true →
        AccessibilityController.reg env c r = c)
    ∧ (c.m_enabled = true → Wf c →
        AccessibilityController.reg env (AccessibilityController.reg env c r) r
          = AccessibilityController.reg env c r) := by
  refine ⟨?_, ?_, ?_⟩
  · intro h
    simp [AccessibilityController.reg, h]
  · exact reg_noop_inited_registered env c r
  · intro he hw
    exact reg_noop_inited_registered env _ r (reg_m_inited env c r he)
      (reg_findItem_valid env c r he hw)

/-- Witness for C3: a disabled controller, an already-registered item in an
initialized controller, and a double registration from scratch. -/
theorem reg_noop_disabled_or_registered_witness :
    AccessibilityController.reg envEmpty { m_enabled := false } (ItemRef.node 0)
      = { m_enabled := false }
    ∧ AccessibilityController.reg envEmpty ctrlFocused (ItemRef.node 0) = ctrlFocused
    ∧ AccessibilityController.reg envScenario
        (AccessibilityController.reg envScenario {} (ItemRef.node 0)) (ItemRef.node 0)
      = AccessibilityController.reg envScenario {} (ItemRef.node 0) :=
  ⟨(reg_noop_disabled_or_registered envEmpty { m_enabled := false } (ItemRef.node 0)).1 rfl,
   (reg_noop_disabled_or_registered envEmpty ctrlFocused (ItemRef.node 0)).2.1 rfl (by decide),
   (reg_noop_disabled_or_registered envScenario {} (ItemRef.node 0)).2.2 rfl
     (by unfold Wf; decide)⟩

theorem findItem_item_eq (c : AccessibilityController) (r : ItemRef)
    (hw : Wf c) (hv : (c.findItem r).isValid = true) :
    (c.findItem r).item = some r := by
  cases hf : c.m_allItems.find? (fun p => p.1 = r) with
  | none =>
    exfalso
    have hemp : c.findItem r = {} := by
      unfold AccessibilityController.findItem
      rw [hf]
    rw [hemp] at hv
    simp [Item.isValid] at hv
  | some p =>
    have hp := hw p (List.mem_of_find?_eq_some hf)
    have hpr : p.1 = r := by simpa using List.find?_some hf
    have hfind : c.findItem r = p.2 := by
      unfold AccessibilityController.findItem
      rw [hf]
    rw [hfind, hp.1, hpr]

/-- C5. Unregistering a registered item clears every focus back-reference
pointing at it: a `lastFocused` equal to the item becomes none, a
pretend-focus target equal to the item becomes none, and focus is never
redirected anywhere else (in particular the deferred `restoreFocus`
restoration, which would move `lastFocused` to the pretend target, is not
invoked). -/
theorem unreg_clears_focus_backrefs (c : AccessibilityController) (r : ItemRef)
    (hw : Wf c) (hv : (c.findItem r).isValid = true) :
    ((AccessibilityController.unreg c (some r)).m_lastFocused
       = if c.m_lastFocused = some r then none else c.m_lastFocused)
    ∧ ((AccessibilityController.unreg c (some r)).m_pretendFocus
       = if c.m_pretendFocus = some r then none else c.m_pretendFocus) := by
  have hitem := findItem_item_eq c r hw hv
  have hobjs : (c.findItem r).object.isSome = true := by
    unfold Item.isValid at hv
    simp only [Bool.and_eq_true] at hv
    exact hv.2
  obtain ⟨obj, hobj⟩ := Option.isSome_iff_exists.mp hobjs
  constructor <;>
  · simp only [AccessibilityController.unreg, AccessibilityController.sendEvent,
      hv, hitem, hobj, if_true]
    by_cases h1 : c.m_lastFocused = some r <;>
      by_cases h2 : c.m_pretendFocus = some r <;>
        simp [h1, h2, eq_comm] <;>
        repeat' split <;> simp_all

/-- Witness for C5: unregistering the focused and pretend-focused item of a
concrete state clears both references. -/
theorem unreg_clears_focus_backrefs_witness :
    ((AccessibilityController.unreg ctrlFocused (some (ItemRef.node 0))).m_lastFocused
       = if ctrlFocused.m_lastFocused = some (ItemRef.node 0) then none
         else ctrlFocused.m_lastFocused)
    ∧ ((AccessibilityController.unreg ctrlFocused (some (ItemRef.node 0))).m_pretendFocus
       = if ctrlFocused.m_pretendFocus = some (ItemRef.node 0) then none
         else ctrlFocused.m_pretendFocus) :=
  unreg_clears_focus_backrefs ctrlFocused (ItemRef.node 0)
    (by unfold Wf; decide) (by decide)

theorem regCore_m_children_skip (env : Env) (c : AccessibilityController) (i : ItemRef)
    (h : ¬(parentOf env i = some ItemRef.root)) :
    (AccessibilityController.regCore env c i).m_children = c.m_children := by
  simp only [AccessibilityController.regCore, AccessibilityController.sendEvent, h]
  repeat' split <;> simp_all

theorem reg_m_children_skip (env : Env) (c : AccessibilityController) (r : ItemRef)
    (h : ¬(parentOf env r = some ItemRef.root)) :
    (AccessibilityController.reg env c r).m_children = c.m_children := by
  simp only [AccessibilityController.reg]
  split
  · split
    · exact regCore_m_children_skip env c r h
    · rw [regCore_m_children_skip env _ r h,
        regCore_m_children_skip env _ ItemRef.root (by simp [parentOf])]
  · rfl

/-- C9. Only items whose reported parent is the Registry root enter the
top-level children list at registration; in the scenario
register A (parent = root) then B (parent = A), the root's
`accessibleChildCount` is 1, B is not in the top-level list, and B is
reachable only through A's own navigation (A reports one child). -/
theorem topLevel_children_only_root_parented :
    (∀ (env : Env) (c : AccessibilityController) (r : ItemRef),
      ¬(parentOf env r = some ItemRef.root) →
      (AccessibilityController.reg env c r).m_children = c.m_children)
    ∧ AccessibilityController.accessibleChildCount regScenario = 1
    ∧ ItemRef.node 1 ∉ regScenario.m_children
    ∧ AccessibilityController.childCount envScenario (some (ItemRef.node 0)) = 1 :=
  ⟨reg_m_children_skip, by decide, by decide, by decide⟩

/-- Witness for C9: registering B (whose parent is A, not the root) on top
of the scenario state leaves the top-level list unchanged. -/
theorem topLevel_children_only_root_parented_witness :
    (AccessibilityController.reg envScenario regScenario (ItemRef.node 1)).m_children
      = regScenario.m_children :=
  topLevel_children_only_root_parented.1 envScenario regScenario (ItemRef.node 1)
    (by decide)
